import Mathlib

/-
Shallow embedding of the zero-drag library (src/lib/index.ts).

The library builds a mousedown listener from a set of optional hooks
(onStart, onDrag, onDrop), optional selectors (selectItem, selectTarget),
value-derivation functions (getItemValue, getTargetValue), and two numeric
tuning parameters (dragThreshold in pixels, deferTargeting in milliseconds).
Two decorators rewrite the options before the base listener sees them:
applyDragThreshold (a per-session boolean gate on cumulative displacement)
and applyDeferredTargeting (a dwell-time debounce on the reported target).

Pixel coordinates and deltas are modelled as Int; time as Nat; JS
undefined-as-absence as Option.  Hook invocation is modelled by emitting a
labelled output (the call to the wrapped, caller-supplied hook, with its
message).  The presence or absence of the caller hooks is a triple of
booleans, since the code only tests them for truthiness before calling.
-/

namespace ZeroDrag

/-- Bounding rectangle as captured by getBoundingClientRect. -/
structure ClientRect where
  left : Int
  top : Int
  width : Int
  height : Int
deriving DecidableEq, Repr

/-- The parts of a mouse event the library reads: page coordinates and the
event target (cast to the element type in the source). -/
structure MouseEvent (El : Type) where
  pageX : Int
  pageY : Int
  target : El
deriving DecidableEq, Repr

/-- DragMessage from src/lib/index.ts: the payload delivered to hooks. -/
structure DragMessage (El V : Type) where
  item : El
  itemValue : V
  itemOffset : ClientRect
  target : Option El
  targetValue : Option V
  event : MouseEvent El
  dx : Int
  dy : Int
deriving DecidableEq, Repr

/-- Which caller-supplied hooks are present (the source only checks their
truthiness before invoking them). -/
structure Hooks where
  hasStart : Bool
  hasDrag : Bool
  hasDrop : Bool
deriving DecidableEq, Repr

/-- An invocation of a caller-supplied hook, with its message. -/
inductive HookCall (El V : Type) where
  | start (m : DragMessage El V)
  | drag (m : DragMessage El V)
  | drop (m : DragMessage El V)
deriving DecidableEq, Repr

/-- ItemPosition from src/lib/index.ts. -/
structure ItemPosition where
  left : Int
  top : Int
deriving DecidableEq, Repr

/-- itemPositionFrom from src/lib/index.ts:
adds the recorded deltas to the initial bounding-box corner. -/
def itemPositionFrom {El V : Type} (m : DragMessage El V) : ItemPosition :=
  { left := m.itemOffset.left + m.dx
    top := m.itemOffset.top + m.dy }

/-! ### The drag-threshold gate (applyDragThreshold)

The decorator closes over one mutable boolean `active`.  Its wrapped
onStart resets it, its wrapped onDrag either forwards (when active) or
tests the squared displacement against the squared threshold, and its
wrapped onDrop forwards only when active.  Each hook is modelled as a
function from the flag and the incoming message to the new flag and the
list of calls made to the caller-supplied hooks. -/

/-- The onStart produced by applyDragThreshold: resets `active` to false
and forwards nothing. -/
def thresholdOnStartHook {El V : Type} (_m : DragMessage El V) :
    Bool × List (HookCall El V) :=
  (false, [])

/-- The onDrag produced by applyDragThreshold: when already active, forward
to the wrapped onDrag; otherwise set `active` from the squared-displacement
comparison and, if it just became active, call the wrapped onStart with the
current (crossing) message. -/
def thresholdOnDragHook {El V : Type} (dist_px : Int) (h : Hooks)
    (active : Bool) (m : DragMessage El V) : Bool × List (HookCall El V) :=
  if active then
    (true, if h.hasDrag then [HookCall.drag m] else [])
  else
    let active2 : Bool := decide (m.dx * m.dx + m.dy * m.dy > dist_px * dist_px)
    (active2, if active2 && h.hasStart then [HookCall.start m] else [])

/-- The onDrop produced by applyDragThreshold: forward to the wrapped
onDrop only when active. -/
def thresholdOnDropHook {El V : Type} (h : Hooks) (active : Bool)
    (m : DragMessage El V) : Bool × List (HookCall El V) :=
  (active, if active && h.hasDrop then [HookCall.drop m] else [])

/-- Folds the gated onDrag over the sequence of move messages of a session,
threading the `active` flag and concatenating forwarded calls. -/
def runThDrags {El V : Type} (dist_px : Int) (h : Hooks) :
    Bool → List (DragMessage El V) → Bool × List (HookCall El V)
  | s, [] => (s, [])
  | s, m :: ms =>
    let p1 := thresholdOnDragHook dist_px h s m
    let p2 := runThDrags dist_px h p1.1 ms
    (p2.1, p1.2 ++ p2.2)

/-- One gated session: the base listener synthesizes onStart with the down
message, onDrag per move message, and onDrop with the up message; this runs
the applyDragThreshold wrappers over that sequence and collects every call
they forward to the caller-supplied hooks. -/
def runThresholdSession {El V : Type} (dist_px : Int) (h : Hooks)
    (m0 : DragMessage El V) (ms : List (DragMessage El V))
    (md : DragMessage El V) : List (HookCall El V) :=
  let p0 := thresholdOnStartHook m0
  let p1 := runThDrags dist_px h p0.1 ms
  let p2 := thresholdOnDropHook h p1.1 md
  p0.2 ++ p1.2 ++ p2.2

/-- One ungated session (no applyDragThreshold): the base listener calls
the hooks directly — onStart at down, onDrag per move, onDrop at up. -/
def runPlainSession {El V : Type} (h : Hooks) (m0 : DragMessage El V)
    (ms : List (DragMessage El V)) (md : DragMessage El V) :
    List (HookCall El V) :=
  (if h.hasStart then [HookCall.start m0] else []) ++
    ms.foldr (fun m acc => (if h.hasDrag then [HookCall.drag m] else []) ++ acc) [] ++
    (if h.hasDrop then [HookCall.drop md] else [])

/-- makeListener applies applyDragThreshold only when `dragThreshold` is
truthy (in JS a number is truthy exactly when it is nonzero, NaN aside);
otherwise the hooks run ungated. -/
def runGatedSession {El V : Type} (dragThreshold : Option Int) (h : Hooks)
    (m0 : DragMessage El V) (ms : List (DragMessage El V))
    (md : DragMessage El V) : List (HookCall El V) :=
  match dragThreshold with
  | none => runPlainSession h m0 ms md
  | some t => if t ≠ 0 then runThresholdSession t h m0 ms md
              else runPlainSession h m0 ms md

/-! ### Message derivation in the base listener (trigger / onMouseDown)

trigger resolves the target via selectTarget (or uses the raw event target
when no selector is configured), derives item and target values, blanks the
target when the two values coincide, and builds the message with deltas
relative to the initial pointer position. -/

/-- Resolve a candidate element: apply the configured selector, or use the
raw event target when no selector is configured. -/
def derivedTarget {El : Type} (sel : Option (El → Option El)) (evTarget : El) :
    Option El :=
  match sel with
  | some f => f evTarget
  | none => some evTarget

/-- The message built by trigger, given the already-resolved target
candidate: derives the item and target values, blanks target and
targetValue when the values coincide, and computes the deltas from the
initial pointer position captured at mousedown. -/
def mkMessage {El V : Type} [DecidableEq V] (getItemValue getTargetValue : El → V)
    (item : El) (itemOffset : ClientRect) (offsetX offsetY : Int)
    (ev : MouseEvent El) (target0 : Option El) : DragMessage El V :=
  let itemValue := getItemValue item
  let targetValue := target0.map getTargetValue
  let collide : Bool := decide (targetValue = some itemValue)
  { item := item
    itemValue := itemValue
    itemOffset := itemOffset
    target := if collide then none else target0
    targetValue := if collide then none else targetValue
    event := ev
    dx := ev.pageX - offsetX
    dy := ev.pageY - offsetY }

/-- The (already-composed) options the base listener destructures. -/
structure BaseOptions (El V : Type) where
  hooks : Hooks
  selectItem : Option (El → Option El)
  selectTarget : Option (El → Option El)
  getItemValue : El → V
  getTargetValue : El → V

/-- trigger from onMouseDown: only when the hook is present, resolve the
target, build the message and invoke the hook. -/
def triggerHook {El V : Type} [DecidableEq V] (opts : BaseOptions El V)
    (item : El) (itemOffset : ClientRect) (offsetX offsetY : Int)
    (present : Bool) (mk : DragMessage El V → HookCall El V)
    (ev : MouseEvent El) : List (HookCall El V) :=
  if present then
    [mk (mkMessage opts.getItemValue opts.getTargetValue item itemOffset
      offsetX offsetY ev (derivedTarget opts.selectTarget ev.target))]
  else []

/-- The observable outcome of one onMouseDown call followed by the session
it starts: the hook calls made, and whether the document move/up listeners
were attached. -/
structure SessionResult (El V : Type) where
  outputs : List (HookCall El V)
  listenersAttached : Bool
deriving DecidableEq, Repr

/-- onMouseDown from makeListener: capture initial pointer coordinates,
resolve the item (selectItem, or the raw event target), abort when the
item is absent, capture its bounding rectangle once, then trigger onStart
with the down event, onDrag per move event, and onDrop with the up event.
The move/up events of the session are given as data, since the DOM
delivers them to the attached listeners. -/
def onMouseDown {El V : Type} [DecidableEq V] (opts : BaseOptions El V)
    (getRect : El → ClientRect) (down : MouseEvent El)
    (moves : List (MouseEvent El)) (up : MouseEvent El) :
    SessionResult El V :=
  let offsetX := down.pageX
  let offsetY := down.pageY
  let item? := match opts.selectItem with
    | some f => f down.target
    | none => some down.target
  match item? with
  | none => { outputs := [], listenersAttached := false }
  | some item =>
    let itemOffset := getRect item
    { outputs :=
        triggerHook opts item itemOffset offsetX offsetY
            opts.hooks.hasStart HookCall.start down ++
          moves.foldr
            (fun ev acc =>
              triggerHook opts item itemOffset offsetX offsetY
                opts.hooks.hasDrag HookCall.drag ev ++ acc) [] ++
          triggerHook opts item itemOffset offsetX offsetY
            opts.hooks.hasDrop HookCall.drop up
      listenersAttached := true }

/-! ### Deferred targeting (applyDeferredTargeting)

The decorator closes over a timer handle, the confirmed target
(current_target), the pending target (next_target) and the last seen
message.  The timer is modelled as the absolute deadline at which the
scheduled callback would run; a fired or cancelled timer is `none`
(in the source the handle of a fired timer goes stale but clearing a dead
timer is a no-op, so this is observationally the same). -/

/-- The configuration of applyDeferredTargeting: the dwell duration and
which caller-supplied hooks are present. -/
structure DeferCfg where
  time_msec : Nat
  hooks : Hooks
deriving DecidableEq, Repr

/-- The mutable state closed over by applyDeferredTargeting. -/
structure DeferState (El V : Type) where
  timer : Option Nat
  current_target : Option El
  next_target : Option El
  last_message : Option (DragMessage El V)
deriving DecidableEq, Repr

/-- The state before any hook has run: no timer, no targets, no message. -/
def initDefer {El V : Type} : DeferState El V :=
  { timer := none, current_target := none, next_target := none,
    last_message := none }

/-- An output of the deferred-targeting wrapper: a call forwarded to a
caller-supplied hook, or the value returned by the wrapped selectTarget. -/
inductive DOut (El V : Type) where
  | start (m : DragMessage El V)
  | drag (m : DragMessage El V)
  | drop (m : DragMessage El V)
  | selected (r : Option El)
deriving DecidableEq, Repr

/-- cancel: clear the pending timer. -/
def cancelTimer {El V : Type} (s : DeferState El V) : DeferState El V :=
  { s with timer := none }

/-- setTarget at absolute time `t`: when the candidate differs from the
pending one, cancel any outstanding timer, record it as pending and arm a
new timer for `time_msec` from now; otherwise do nothing. -/
def setTarget {El V : Type} [DecidableEq El] (time_msec : Nat) (t : Nat)
    (new_target : Option El) (s : DeferState El V) : DeferState El V :=
  if new_target ≠ s.next_target then
    let s1 := cancelTimer s
    { s1 with next_target := new_target, timer := some (t + time_msec) }
  else s

/-- The selectTarget produced by applyDeferredTargeting, given the
already-resolved candidate: runs setTarget and synchronously returns the
confirmed target. -/
def deferSelectTarget {El V : Type} [DecidableEq El] (time_msec : Nat)
    (t : Nat) (cand : Option El) (s : DeferState El V) :
    DeferState El V × Option El :=
  (setTarget time_msec t cand s, s.current_target)

/-- The timer callback: promote the pending target to confirmed and, when
a wrapped onDrag is configured, invoke it with the last seen message with
its target field overwritten to the newly confirmed target. -/
def timerFire {El V : Type} (cfg : DeferCfg) (s : DeferState El V) :
    DeferState El V × List (DOut El V) :=
  let s1 := { s with current_target := s.next_target, timer := none }
  match s.last_message with
  | some m =>
    (s1, if cfg.hooks.hasDrag then [DOut.drag { m with target := s.next_target }]
         else [])
  | none => (s1, [])

/-- Runs the timer callback at time `t` when a scheduled deadline has been
reached; otherwise leaves the state alone. -/
def fireIfDue {El V : Type} (cfg : DeferCfg) (t : Nat) (s : DeferState El V) :
    DeferState El V × List (DOut El V) :=
  match s.timer with
  | some d => if d ≤ t then timerFire cfg s else (s, [])
  | none => (s, [])

/-- The onStart produced by applyDeferredTargeting: reset both targets,
record the message as last seen, forward to the wrapped onStart. -/
def deferOnStart {El V : Type} (cfg : DeferCfg) (m : DragMessage El V)
    (s : DeferState El V) : DeferState El V × List (DOut El V) :=
  ({ s with current_target := none, next_target := none,
            last_message := some m },
   if cfg.hooks.hasStart then [DOut.start m] else [])

/-- The onDrag produced by applyDeferredTargeting: record the message as
last seen, forward with the target overwritten to the confirmed one. -/
def deferOnDrag {El V : Type} (cfg : DeferCfg) (m : DragMessage El V)
    (s : DeferState El V) : DeferState El V × List (DOut El V) :=
  ({ s with last_message := some m },
   if cfg.hooks.hasDrag then [DOut.drag { m with target := s.current_target }]
   else [])

/-- The onDrop produced by applyDeferredTargeting: cancel any outstanding
timer, forward with the target overwritten to the confirmed one. -/
def deferOnDrop {El V : Type} (cfg : DeferCfg) (m : DragMessage El V)
    (s : DeferState El V) : DeferState El V × List (DOut El V) :=
  (cancelTimer s,
   if cfg.hooks.hasDrop then [DOut.drop { m with target := s.current_target }]
   else [])

/-- One timestamped call to the wrapped selectTarget, with the candidate
the inner selector resolved. -/
structure SelectCall (El : Type) where
  t : Nat
  cand : Option El
deriving DecidableEq, Repr

/-- Runs a sequence of timestamped selectTarget calls: before each call the
timer callback runs if its deadline has passed, then the call itself. -/
def runSelects {El V : Type} [DecidableEq El] (cfg : DeferCfg) :
    DeferState El V → List (SelectCall El) →
    DeferState El V × List (DOut El V)
  | s, [] => (s, [])
  | s, c :: cs =>
    let p1 := fireIfDue cfg c.t s
    let p2 := deferSelectTarget cfg.time_msec c.t c.cand p1.1
    let p3 := runSelects cfg p2.1 cs
    (p3.1, p1.2 ++ [DOut.selected p2.2] ++ p3.2)

/-- Runs the selectTarget calls and then lets time pass until `tEnd`,
firing the timer callback if its deadline falls in that window. -/
def runSelectsUntil {El V : Type} [DecidableEq El] (cfg : DeferCfg)
    (s : DeferState El V) (cs : List (SelectCall El)) (tEnd : Nat) :
    DeferState El V × List (DOut El V) :=
  let p1 := runSelects cfg s cs
  let p2 := fireIfDue cfg tEnd p1.1
  (p2.1, p1.2 ++ p2.2)

/-- The composed processing of the down event when deferred targeting is
active: trigger(onStart, event) first calls the wrapped selectTarget
(arming the debounce timer as a side effect), builds the start message
with the returned confirmed target, and then calls the wrapped onStart. -/
def deferDownStep {El V : Type} [DecidableEq El] [DecidableEq V]
    (cfg : DeferCfg) (userSelect : Option (El → Option El))
    (getItemValue getTargetValue : El → V) (item : El)
    (itemOffset : ClientRect) (t0 : Nat) (ev : MouseEvent El)
    (s : DeferState El V) : DeferState El V × List (DOut El V) :=
  let cand := derivedTarget userSelect ev.target
  let p1 := deferSelectTarget cfg.time_msec t0 cand s
  let m0 := mkMessage getItemValue getTargetValue item itemOffset
    ev.pageX ev.pageY ev p1.2
  deferOnStart cfg m0 p1.1

/-- A concrete drag message over Nat elements and values, with the given
deltas, for instantiating session-level statements. -/
def demoMsg (dx dy : Int) : DragMessage Nat Nat :=
  { item := 7, itemValue := 7, itemOffset := ⟨0, 0, 0, 0⟩, target := none,
    targetValue := none, event := ⟨dx, dy, 7⟩, dx := dx, dy := dy }

/-- Concrete base options over Nat elements: all hooks present, no
selectors, identity value derivation. -/
def c8Opts : BaseOptions Nat Nat :=
  { hooks := ⟨true, true, true⟩, selectItem := none, selectTarget := none,
    getItemValue := id, getTargetValue := id }

/-- Concrete bounding rectangle: every element reports
left 10, top 20, width 100, height 50. -/
def c8Rect : Nat → ClientRect := fun _ => ⟨10, 20, 100, 50⟩

/-- The mousedown event of the C8 scenario: initial pointer (15, 25). -/
def c8Down : MouseEvent Nat := ⟨15, 25, 7⟩

/-- The move event of the C8 scenario: pointer at (115, 75). -/
def c8Move : MouseEvent Nat := ⟨115, 75, 7⟩

/-- The drag message the base listener builds for the C8 move event. -/
def c8DragMsg : DragMessage Nat Nat :=
  mkMessage id id 7 ⟨10, 20, 100, 50⟩ 15 25 c8Move (some 7)

/-! ### Helper lemmas for the threshold gate -/

/-- Running the gated onDrag over a concatenation threads the flag and
concatenates the forwarded calls. -/
theorem runThDrags_append {El V : Type} (dist : Int) (h : Hooks) (s : Bool)
    (xs ys : List (DragMessage El V)) :
    runThDrags dist h s (xs ++ ys) =
      ((runThDrags dist h (runThDrags dist h s xs).1 ys).1,
       (runThDrags dist h s xs).2 ++
         (runThDrags dist h (runThDrags dist h s xs).1 ys).2) := by
  induction xs generalizing s with
  | nil => simp [runThDrags]
  | cons x xs ih => simp [runThDrags, ih]

/-- While every move message stays at or below the squared threshold, the
gate stays inactive and forwards nothing. -/
theorem runThDrags_subthreshold {El V : Type} (T : Int) (h : Hooks)
    (ms : List (DragMessage El V))
    (hsub : ∀ m ∈ ms, m.dx * m.dx + m.dy * m.dy ≤ T * T) :
    runThDrags T h false ms = (false, []) := by
  induction ms with
  | nil => rfl
  | cons m ms ih =>
    have hm : ¬ (m.dx * m.dx + m.dy * m.dy > T * T) :=
      not_lt.mpr (hsub m (List.mem_cons_self _ _))
    have hrest : ∀ m2 ∈ ms, m2.dx * m2.dx + m2.dy * m2.dy ≤ T * T :=
      fun m2 hm2 => hsub m2 (List.mem_cons_of_mem _ hm2)
    simp [runThDrags, thresholdOnDragHook, hm, ih hrest]

/-- Claim C1: with dragThreshold T > 0, the wrapped onStart is not
forwarded at pointer-down; after any prefix of moves whose squared
displacement stays at or below T*T (boundary included: at displacement
exactly T the gate remains inactive), the first forwarded call of the
whole session is the wrapped onStart with the first drag message whose
squared displacement strictly exceeds T*T — the crossing message itself,
not the initial zero-displacement message. -/
theorem c1_threshold_defers_start {El V : Type} (T : Int) (h : Hooks)
    (m0 md : DragMessage El V) (pre post : List (DragMessage El V))
    (mc : DragMessage El V)
    (_hT : 0 < T) (hs : h.hasStart = true)
    (hpre : ∀ m ∈ pre, m.dx * m.dx + m.dy * m.dy ≤ T * T)
    (hmc : mc.dx * mc.dx + mc.dy * mc.dy > T * T) :
    ∃ rest, runThresholdSession T h m0 (pre ++ mc :: post) md =
      HookCall.start mc :: rest := by
  refine ⟨(runThDrags T h true post).2 ++
    (thresholdOnDropHook h (runThDrags T h true post).1 md).2, ?_⟩
  simp [runThresholdSession, thresholdOnStartHook, runThDrags_append,
    runThDrags_subthreshold T h pre hpre, runThDrags, thresholdOnDragHook,
    hmc, hs]

/-- A concrete instance of C1: threshold 5, moves (3,3) then (3,4) — the
latter at displacement exactly 5 — keep the gate inactive, and the move
(4,4) with squared displacement 32 > 25 produces the first forwarded call,
a wrapped onStart carrying that crossing message. -/
theorem c1_threshold_defers_start_witness :
    ∃ rest, runThresholdSession 5 ⟨true, true, true⟩
      (demoMsg 0 0) ([demoMsg 3 3, demoMsg 3 4] ++ demoMsg 4 4 :: [])
      (demoMsg 4 4) = HookCall.start (demoMsg 4 4) :: rest :=
  c1_threshold_defers_start 5 ⟨true, true, true⟩ (demoMsg 0 0) (demoMsg 4 4)
    [demoMsg 3 3, demoMsg 3 4] [] (demoMsg 4 4) (by decide) rfl (by decide)
    (by decide)

/-- Claim C2: with dragThreshold T > 0, a session in which no drag message
ever strictly exceeds squared displacement T*T forwards no calls at all —
no onStart, no onDrag and no onDrop reach the caller. -/
theorem c2_subthreshold_click_silent {El V : Type} (T : Int) (h : Hooks)
    (m0 md : DragMessage El V) (ms : List (DragMessage El V))
    (_hT : 0 < T)
    (hsub : ∀ m ∈ ms, m.dx * m.dx + m.dy * m.dy ≤ T * T) :
    runThresholdSession T h m0 ms md = [] := by
  simp [runThresholdSession, thresholdOnStartHook,
    runThDrags_subthreshold T h ms hsub, thresholdOnDropHook]

/-- A concrete instance of C2: threshold 5, moves (3,3) and (3,4) never
exceed squared displacement 25, so the whole session is silent. -/
theorem c2_subthreshold_click_silent_witness :
    runThresholdSession 5 ⟨true, true, true⟩
      (demoMsg 0 0) [demoMsg 3 3, demoMsg 3 4] (demoMsg 3 4) = [] :=
  c2_subthreshold_click_silent 5 ⟨true, true, true⟩ (demoMsg 0 0)
    (demoMsg 3 4) [demoMsg 3 3, demoMsg 3 4] (by decide) (by decide)

/-- Claim C9 fails as stated: a negative dragThreshold does not degenerate
to an always-active gate.  With dragThreshold -5 (truthy, so the gate is
applied, and (-5)*(-5) = 25), a session whose single move has dx = 3,
dy = 0 forwards nothing at all, whereas an always-active configuration
forwards start, drag and drop. -/
theorem c9_counterexample :
    runGatedSession (some (-5)) ⟨true, true, true⟩ (demoMsg 0 0)
        [demoMsg 3 0] (demoMsg 3 0) = [] ∧
      runPlainSession ⟨true, true, true⟩ (demoMsg 0 0) [demoMsg 3 0]
        (demoMsg 3 0) =
        [HookCall.start (demoMsg 0 0), HookCall.drag (demoMsg 3 0),
          HookCall.drop (demoMsg 3 0)] := by
  exact ⟨by decide, by decide⟩

/-- The gated onDrag only reads the threshold through its square. -/
theorem runThDrags_neg {El V : Type} (dist : Int) (h : Hooks) (s : Bool)
    (ms : List (DragMessage El V)) :
    runThDrags (-dist) h s ms = runThDrags dist h s ms := by
  induction ms generalizing s with
  | nil => rfl
  | cons m ms ih => simp [runThDrags, thresholdOnDragHook, neg_mul_neg, ih]

/-- Claim C9 amended: dragThreshold 0 is falsy, so the gate is not applied
and the hooks run ungated (always active); a nonzero dragThreshold t —
negative included — gates exactly like -t, because the comparison squares
both sides.  So a negative threshold behaves like its absolute value, not
like an always-active gate. -/
theorem c9_amended_nonpositive_threshold {El V : Type} (h : Hooks)
    (m0 md : DragMessage El V) (ms : List (DragMessage El V)) :
    runGatedSession (some 0) h m0 ms md = runPlainSession h m0 ms md ∧
      ∀ t : Int, runGatedSession (some (-t)) h m0 ms md =
        runGatedSession (some t) h m0 ms md := by
  constructor
  · simp [runGatedSession]
  · intro t
    by_cases ht : t = 0
    · subst ht; simp
    · have hnt : (-t : Int) ≠ 0 := neg_ne_zero.mpr ht
      simp only [runGatedSession, if_pos ht, if_pos hnt, runThresholdSession,
        runThDrags_neg]

/-! ### Deferred targeting -/

/-- Claim C3: the wrapped selectTarget synchronously returns the confirmed
target (never the pending candidate); a candidate that differs from the
pending one replaces any outstanding timer with a fresh one for the
configured duration and is recorded as pending; a candidate equal to the
pending one changes nothing (no timer restart). -/
theorem c3_defer_select_debounce {El V : Type} [DecidableEq El]
    (time_msec t : Nat) (cand : Option El) (s : DeferState El V) :
    (deferSelectTarget time_msec t cand s).2 = s.current_target ∧
      (cand ≠ s.next_target →
        (deferSelectTarget time_msec t cand s).1 =
          { s with next_target := cand, timer := some (t + time_msec) }) ∧
      (cand = s.next_target →
        (deferSelectTarget time_msec t cand s).1 = s) := by
  refine ⟨rfl, fun hne => ?_, fun he => ?_⟩
  · show setTarget time_msec t cand s = _
    rw [setTarget, if_pos hne]
    rfl
  · show setTarget time_msec t cand s = s
    rw [setTarget, if_neg (not_not_intro he)]

/-- A concrete instance of C3: from the fresh state, requesting target 1 at
t = 0 returns the confirmed target (absent), records 1 as pending and arms
a timer for t = 200; requesting 1 again at t = 50 leaves the state — timer
included — untouched. -/
theorem c3_defer_select_debounce_witness :
    (deferSelectTarget 200 0 (some 1) (initDefer : DeferState Nat Nat)).2
        = none ∧
      (deferSelectTarget 200 0 (some 1)
          (initDefer : DeferState Nat Nat)).1 =
        { timer := some 200, current_target := none, next_target := some 1,
          last_message := none } ∧
      (deferSelectTarget 200 50 (some 1)
          { timer := some 200, current_target := none,
            next_target := some 1,
            last_message := (none : Option (DragMessage Nat Nat)) }).1 =
        { timer := some 200, current_target := none, next_target := some 1,
          last_message := none } :=
  ⟨(c3_defer_select_debounce 200 0 (some 1) initDefer).1,
    (c3_defer_select_debounce 200 0 (some 1) initDefer).2.1 (by decide),
    (c3_defer_select_debounce 200 50 (some 1) _).2.2 rfl⟩

/-- Claim C4: once a new candidate B becomes pending, an uninterrupted
timer expiry after the configured duration promotes B to confirmed and
forwards exactly one wrapped onDrag whose message is the last seen message
with its target overwritten to B; concretely, with deferTargeting 200 a
select of X at t = 0 returns absent and arms the timer, a second select of
X at t = 50 does not restart it, and at t = 200 the timer fires, X becomes
confirmed and one onDrag is forwarded with target X and the old deltas. -/
theorem c4_defer_promotion {El V : Type} [DecidableEq El] [DecidableEq V] :
    (∀ (cfg : DeferCfg) (s : DeferState El V) (t : Nat) (B : El)
        (lm : DragMessage El V),
      cfg.hooks.hasDrag = true → s.last_message = some lm →
      some B ≠ s.next_target →
      fireIfDue cfg (t + cfg.time_msec)
          (deferSelectTarget cfg.time_msec t (some B) s).1 =
        ({ s with
            next_target := some B
            current_target := some B
            timer := none },
          [DOut.drag { lm with target := some B }])) ∧
      runSelectsUntil ⟨200, ⟨true, true, true⟩⟩
          (deferOnStart ⟨200, ⟨true, true, true⟩⟩ (demoMsg 0 0) initDefer).1
          [⟨0, some 1⟩, ⟨50, some 1⟩] 200 =
        ({ timer := none, current_target := some 1, next_target := some 1,
            last_message := some (demoMsg 0 0) },
          [DOut.selected none, DOut.selected none,
            DOut.drag { demoMsg 0 0 with target := some 1 }]) := by
  constructor
  · intro cfg s t B lm hd hlm hne
    simp [deferSelectTarget, setTarget, cancelTimer, hne, fireIfDue,
      timerFire, hlm, hd]
  · decide

/-- A concrete instance of the general part of C4: with duration 200, a
pending target 2 requested at t = 0 over a state whose last seen message is
demoMsg 3 4 is promoted at t = 200, forwarding one onDrag carrying
demoMsg 3 4 with target 2. -/
theorem c4_defer_promotion_witness :
    fireIfDue ⟨200, ⟨true, true, true⟩⟩ (0 + 200)
        (deferSelectTarget 200 0 (some 2)
          { timer := none, current_target := none, next_target := none,
            last_message := some (demoMsg 3 4) }).1 =
      ({ timer := none, current_target := some 2, next_target := some 2,
          last_message := some (demoMsg 3 4) },
        [DOut.drag { demoMsg 3 4 with target := some 2 }]) :=
  c4_defer_promotion.1 ⟨200, ⟨true, true, true⟩⟩
    { timer := none, current_target := none, next_target := none,
      last_message := some (demoMsg 3 4) } 0 2 (demoMsg 3 4) rfl rfl
    (by decide)

/-- Claim C5: with no timer pending beforehand, moving across targets a,
then b, then a again, all within the configured duration, never changes the
confirmed target (each call still reports the pre-sequence confirmed
target) and produces no timer-fired onDrag at all. -/
theorem c5_no_flicker {El V : Type} [DecidableEq El] (cfg : DeferCfg)
    (s : DeferState El V) (a b : El) (tA tB tC : Nat)
    (hab : a ≠ b) (htimer : s.timer = none)
    (h1 : tA ≤ tB) (h2 : tB ≤ tC) (h3 : tC < tA + cfg.time_msec) :
    runSelects cfg s [⟨tA, some a⟩, ⟨tB, some b⟩, ⟨tC, some a⟩] =
      ({ s with
          next_target := some a
          timer := some (tC + cfg.time_msec) },
        [DOut.selected s.current_target, DOut.selected s.current_target,
          DOut.selected s.current_target]) := by
  have hba : (some b : Option El) ≠ some a := by simp [Ne.symm hab]
  have hab2 : (some a : Option El) ≠ some b := by simp [hab]
  have hnd1 : ¬ (tA + cfg.time_msec ≤ tB) := by omega
  have hnd2 : ¬ (tB + cfg.time_msec ≤ tC) := by omega
  by_cases hfirst : (some a : Option El) = s.next_target
  · simp [runSelects, fireIfDue, htimer, deferSelectTarget, setTarget,
      cancelTimer, ← hfirst, hba, hab2, hnd2]
  · simp [runSelects, fireIfDue, htimer, deferSelectTarget, setTarget,
      cancelTimer, hfirst, hba, hab2, hnd1, hnd2]

/-- A concrete instance of C5: confirmed target 9, duration 200, selects of
1 at t = 10, 2 at t = 20, 1 at t = 30 — each reports 9 and no onDrag is
forwarded. -/
theorem c5_no_flicker_witness :
    runSelects ⟨200, ⟨true, true, true⟩⟩
        ({ timer := none
           current_target := some 9
           next_target := some 9
           last_message := none } : DeferState Nat Nat)
        [⟨10, some 1⟩, ⟨20, some 2⟩, ⟨30, some 1⟩] =
      ({ timer := some 230, current_target := some 9, next_target := some 1,
          last_message := none },
        [DOut.selected (some 9), DOut.selected (some 9),
          DOut.selected (some 9)]) :=
  c5_no_flicker ⟨200, ⟨true, true, true⟩⟩
    { timer := none, current_target := some 9, next_target := some 9,
      last_message := none } 1 2 10 20 30 (by decide) rfl (by decide)
    (by decide) (by decide)

/-- Claim C10: processing the down event under deferred targeting — where
trigger resolves the target through the wrapped selectTarget (arming the
debounce timer) before invoking the wrapped onStart — leaves the timer
armed for the configured duration even though onStart reset both targets;
if nothing else happens before the deadline, the timer fires and forwards
the wrapped onDrag with the recorded start message, whose target is
absent, despite no pointer movement and no confirmed-target change. -/
theorem c10_down_arms_spurious_drag {El V : Type} [DecidableEq El]
    [DecidableEq V] (cfg : DeferCfg) (userSelect : Option (El → Option El))
    (getItemValue getTargetValue : El → V) (item : El)
    (itemOffset : ClientRect) (t0 : Nat) (ev : MouseEvent El) (c : El)
    (hd : cfg.hooks.hasDrag = true)
    (hc : derivedTarget userSelect ev.target = some c) :
    (mkMessage getItemValue getTargetValue item itemOffset ev.pageX ev.pageY
        ev none).target = none ∧
      (deferDownStep cfg userSelect getItemValue getTargetValue item
          itemOffset t0 ev initDefer).1 =
        { timer := some (t0 + cfg.time_msec), current_target := none,
          next_target := none,
          last_message := some (mkMessage getItemValue getTargetValue item
            itemOffset ev.pageX ev.pageY ev none) } ∧
      fireIfDue cfg (t0 + cfg.time_msec)
          (deferDownStep cfg userSelect getItemValue getTargetValue item
            itemOffset t0 ev initDefer).1 =
        ({ timer := none, current_target := none, next_target := none,
            last_message := some (mkMessage getItemValue getTargetValue item
              itemOffset ev.pageX ev.pageY ev none) },
          [DOut.drag (mkMessage getItemValue getTargetValue item itemOffset
            ev.pageX ev.pageY ev none)]) := by
  refine ⟨by simp [mkMessage], ?_, ?_⟩
  · simp [deferDownStep, hc, deferSelectTarget, setTarget, cancelTimer,
      initDefer, deferOnStart]
  · simp [deferDownStep, hc, deferSelectTarget, setTarget, cancelTimer,
      initDefer, deferOnStart, fireIfDue, timerFire, hd, mkMessage]

/-- A concrete instance of C10: duration 200, raw event target 3 under the
pointer at mousedown, item 7 — after the down step the timer is armed for
t = 200 with both targets reset, and its expiry forwards one onDrag with
the zero-displacement start message and an absent target. -/
theorem c10_down_arms_spurious_drag_witness :
    (mkMessage (id : Nat → Nat) id 7 ⟨0, 0, 0, 0⟩ 15 25 ⟨15, 25, 3⟩
        none).target = none ∧
      (deferDownStep ⟨200, ⟨true, true, true⟩⟩ none id id 7 ⟨0, 0, 0, 0⟩ 0
          ⟨15, 25, 3⟩ initDefer).1 =
        { timer := some (0 + 200), current_target := none,
          next_target := none,
          last_message := some (mkMessage id id 7 ⟨0, 0, 0, 0⟩ 15 25
            ⟨15, 25, 3⟩ none) } ∧
      fireIfDue ⟨200, ⟨true, true, true⟩⟩ (0 + 200)
          (deferDownStep ⟨200, ⟨true, true, true⟩⟩ none id id 7 ⟨0, 0, 0, 0⟩
            0 ⟨15, 25, 3⟩ initDefer).1 =
        ({ timer := none, current_target := none, next_target := none,
            last_message := some (mkMessage id id 7 ⟨0, 0, 0, 0⟩ 15 25
              ⟨15, 25, 3⟩ none) },
          [DOut.drag (mkMessage id id 7 ⟨0, 0, 0, 0⟩ 15 25 ⟨15, 25, 3⟩
            none)]) :=
  c10_down_arms_spurious_drag ⟨200, ⟨true, true, true⟩⟩ none id id 7
    ⟨0, 0, 0, 0⟩ 0 ⟨15, 25, 3⟩ 3 rfl rfl

/-! ### The base listener -/

/-- Claim C6: whenever trigger resolves a target whose derived value equals
the derived value of the item, the hook is invoked with a message whose
target and targetValue are both absent — the collision is signalled by
absence, not by an error (message construction is total). -/
theorem c6_identity_collision {El V : Type} [DecidableEq V]
    (opts : BaseOptions El V) (item : El) (itemOffset : ClientRect)
    (offsetX offsetY : Int) (ev : MouseEvent El) (tgt : El)
    (mkc : DragMessage El V → HookCall El V)
    (hres : derivedTarget opts.selectTarget ev.target = some tgt)
    (hval : opts.getTargetValue tgt = opts.getItemValue item) :
    triggerHook opts item itemOffset offsetX offsetY true mkc ev =
        [mkc (mkMessage opts.getItemValue opts.getTargetValue item itemOffset
          offsetX offsetY ev (derivedTarget opts.selectTarget ev.target))] ∧
      (mkMessage opts.getItemValue opts.getTargetValue item itemOffset
        offsetX offsetY ev (derivedTarget opts.selectTarget ev.target)).target
        = none ∧
      (mkMessage opts.getItemValue opts.getTargetValue item itemOffset
          offsetX offsetY ev
          (derivedTarget opts.selectTarget ev.target)).targetValue = none := by
  refine ⟨by simp [triggerHook], ?_, ?_⟩ <;>
    rw [hres] <;> simp [mkMessage, hval]

/-- A concrete instance of C6: identity values, item 7, raw event target 7
— the derived values collide and the emitted message carries no target and
no targetValue. -/
theorem c6_identity_collision_witness :
    triggerHook c8Opts 7 ⟨0, 0, 0, 0⟩ 0 0 true HookCall.drag ⟨3, 4, 7⟩ =
        [HookCall.drag (mkMessage id id 7 ⟨0, 0, 0, 0⟩ 0 0 ⟨3, 4, 7⟩
          (derivedTarget c8Opts.selectTarget 7))] ∧
      (mkMessage (id : Nat → Nat) id 7 ⟨0, 0, 0, 0⟩ 0 0 ⟨3, 4, 7⟩
        (derivedTarget c8Opts.selectTarget 7)).target = none ∧
      (mkMessage (id : Nat → Nat) id 7 ⟨0, 0, 0, 0⟩ 0 0 ⟨3, 4, 7⟩
        (derivedTarget c8Opts.selectTarget 7)).targetValue = none :=
  c6_identity_collision c8Opts 7 ⟨0, 0, 0, 0⟩ 0 0 ⟨3, 4, 7⟩ 7 HookCall.drag
    rfl rfl

/-- Claim C7: when the configured selectItem resolves no element at
mousedown, the handler returns before anything happens — no hook call is
emitted and the move/up listeners are never attached (and the model is a
total function, so no exception is possible). -/
theorem c7_no_item_aborts {El V : Type} [DecidableEq V]
    (opts : BaseOptions El V) (f : El → Option El) (getRect : El → ClientRect)
    (down : MouseEvent El) (moves : List (MouseEvent El))
    (up : MouseEvent El)
    (hsel : opts.selectItem = some f) (hnone : f down.target = none) :
    onMouseDown opts getRect down moves up =
      { outputs := [], listenersAttached := false } := by
  simp [onMouseDown, hsel, hnone]

/-- A concrete instance of C7: a selectItem that rejects everything makes
the mousedown handler a no-op with no listeners attached. -/
theorem c7_no_item_aborts_witness :
    onMouseDown
        { c8Opts with selectItem := some (fun _ => none) } c8Rect c8Down
        [c8Move] c8Move =
      { outputs := [], listenersAttached := false } :=
  c7_no_item_aborts { c8Opts with selectItem := some (fun _ => none) }
    (fun _ => none) c8Rect c8Down [c8Move] c8Move rfl rfl

/-- Claim C8: itemPositionFrom returns exactly the initial bounding-box
corner plus the recorded deltas (a pure function of the message, so
repeated calls agree); in the scenario with item box at (10, 20), initial
pointer (15, 25) and a move to (115, 75), the session produces a drag
message with dx = 100 and dy = 50, and itemPositionFrom yields
left 110, top 70. -/
theorem c8_item_position {El V : Type} :
    (∀ m : DragMessage El V, itemPositionFrom m =
      { left := m.itemOffset.left + m.dx, top := m.itemOffset.top + m.dy }) ∧
      onMouseDown c8Opts c8Rect c8Down [c8Move] c8Move =
        { outputs :=
            [HookCall.start (mkMessage id id 7 ⟨10, 20, 100, 50⟩ 15 25
              c8Down (some 7)),
              HookCall.drag c8DragMsg, HookCall.drop c8DragMsg],
          listenersAttached := true } ∧
      c8DragMsg.dx = 100 ∧ c8DragMsg.dy = 50 ∧
      itemPositionFrom c8DragMsg = { left := 110, top := 70 } :=
  ⟨fun _ => rfl, by decide, by decide, by decide, by decide⟩

end ZeroDrag
